import Mathlib

/-!
Shallow embedding of the statsmodels example notebooks
(quasi-binomial regression, quantile regression, meta-analysis)
and proofs of the specification claims about them.

The repository consists of three Jupyter notebooks.  Their own code is
script-style glue: inline data literals, calls into the external
statsmodels / pandas / numpy / matplotlib libraries, printing and
plotting.  The embedding below reproduces, from the notebook sources:

* the numeric data literals and the notebook-side data transformations
  (the barley-blotch table and its melt, the 2x2xK contingency tables);
* the one piece of numerical code the notebooks define themselves, the
  custom variance-function class `vf`;
* a syntactic catalogue of the functions the notebooks define, the
  model-fitting invocations, the side-effecting operations and the data
  inputs, each entry transcribed from one place in the notebook source;
* a sequential error-monad execution model for notebook cells.
-/

namespace Notebooks

/-! ### The custom variance function `vf` (quasi-binomial notebook)

Source (quasi-binomial notebook, cell defining `class vf`):

    class vf(sm.families.varfuncs.VarianceFunction):
        def __call__(self, mu):
            return mu ** 2 * (1 - mu) ** 2

        def deriv(self, mu):
            return 2 * mu - 6 * mu ** 2 + 4 * mu ** 3
-/

/-- Body of `vf.__call__` from the notebook source: `mu ** 2 * (1 - mu) ** 2`. -/
def vf.call (mu : ℚ) : ℚ := mu ^ 2 * (1 - mu) ^ 2

/-- Body of `vf.deriv` from the notebook source: `2 * mu - 6 * mu ** 2 + 4 * mu ** 3`. -/
def vf.deriv (mu : ℚ) : ℚ := 2 * mu - 6 * mu ^ 2 + 4 * mu ^ 3

/-! Formal derivative of a polynomial given by its coefficient list
(constant coefficient first).  `polyEval` is Horner evaluation. -/

/-- Horner evaluation of a coefficient list (constant term first). -/
def polyEval (cs : List ℚ) (x : ℚ) : ℚ := cs.foldr (fun a acc => a + x * acc) 0

/-- Pointwise sum of two coefficient lists (the longer tail is kept). -/
def polyAdd : List ℚ → List ℚ → List ℚ
  | [], q => q
  | p, [] => p
  | a :: p, b :: q => (a + b) :: polyAdd p q

/-- Formal derivative on coefficient lists: since
`p(x) = c + x * q(x)` has derivative `q(x) + x * q'(x)`, the derivative
of `c :: q` is `polyAdd q (0 :: polyDeriv q)`. -/
def polyDeriv : List ℚ → List ℚ
  | [] => []
  | _ :: q => polyAdd q (0 :: polyDeriv q)

/-- Coefficients of `vf.__call__`: `mu^2 * (1-mu)^2 = mu^2 - 2 mu^3 + mu^4`. -/
def vfCallCoeffs : List ℚ := [0, 0, 1, -2, 1]

/-- Coefficients of `vf.deriv`: `2 mu - 6 mu^2 + 4 mu^3`. -/
def vfDerivCoeffs : List ℚ := [0, 2, -6, 4]

theorem polyEval_polyAdd (p q : List ℚ) (x : ℚ) :
    polyEval (polyAdd p q) x = polyEval p x + polyEval q x := by
  induction p generalizing q with
  | nil => simp [polyAdd, polyEval]
  | cons a p ih =>
    cases q with
    | nil => simp [polyAdd, polyEval]
    | cons b q =>
      simp only [polyAdd, polyEval, List.foldr] at *
      rw [ih]
      ring

theorem polyEval_cons (a : ℚ) (p : List ℚ) (x : ℚ) :
    polyEval (a :: p) x = a + x * polyEval p x := rfl

/-- `polyDeriv` computes the exact (analytic) derivative of `polyEval`. -/
theorem hasDerivAt_polyEval (cs : List ℚ) (x : ℚ) :
    HasDerivAt (polyEval cs) (polyEval (polyDeriv cs) x) x := by
  induction cs generalizing x with
  | nil =>
    simpa [polyEval, polyDeriv] using (hasDerivAt_const x (0 : ℚ))
  | cons a q ih =>
    have h1 : HasDerivAt (fun y : ℚ => polyEval q y) (polyEval (polyDeriv q) x) x := ih x
    have h2 : HasDerivAt (fun y : ℚ => y * polyEval q y)
        (1 * polyEval q x + x * polyEval (polyDeriv q) x) x :=
      (hasDerivAt_id x).mul h1
    have h3 : HasDerivAt (fun y : ℚ => a + y * polyEval q y)
        (1 * polyEval q x + x * polyEval (polyDeriv q) x) x := by
      simpa using (hasDerivAt_const x a).add h2
    have h4 : HasDerivAt (polyEval (a :: q))
        (1 * polyEval q x + x * polyEval (polyDeriv q) x) x := by
      have hfun : (fun y : ℚ => a + y * polyEval q y) = polyEval (a :: q) := by
        funext y
        simp [polyEval_cons]
      rwa [hfun] at h3
    have hval : 1 * polyEval q x + x * polyEval (polyDeriv q) x
        = polyEval (polyDeriv (a :: q)) x := by
      simp only [polyDeriv, polyEval_polyAdd, polyEval_cons]
      ring
    rwa [hval] at h4

/-! ### The barley leaf blotch data (quasi-binomial notebook)

Source cells:

    raw = StringIO("0.05,0.00,1.25,...")      # 10 rows x 9 columns of percentages
    df = pd.read_csv(raw, header=None)
    df = df.melt()
    df["site"] = 1 + np.floor(df.index / 10).astype(int)
    df["variety"] = 1 + (df.index % 10)
    df = df.rename(columns=...)               # value -> blotch
    df = df.drop("variable", axis=1)
    df["blotch"] /= 100

`pd.read_csv` parses the inline literal into a 10x9 table; `df.melt()`
stacks the 9 columns one after another (column-major), giving 90 rows in
which row `i` holds the entry in column `i / 10`, row `i % 10` of the
raw table. -/

/-- The inline 10x9 literal of percentages, row by row as in the notebook. -/
def raw : List (List ℚ) :=
  [[0.05, 0.00, 1.25, 2.50, 5.50, 1.00, 5.00, 5.00, 17.50],
   [0.00, 0.05, 1.25, 0.50, 1.00, 5.00, 0.10, 10.00, 25.00],
   [0.00, 0.05, 2.50, 0.01, 6.00, 5.00, 5.00, 5.00, 42.50],
   [0.10, 0.30, 16.60, 3.00, 1.10, 5.00, 5.00, 5.00, 50.00],
   [0.25, 0.75, 2.50, 2.50, 2.50, 5.00, 50.00, 25.00, 37.50],
   [0.05, 0.30, 2.50, 0.01, 8.00, 5.00, 10.00, 75.00, 95.00],
   [0.50, 3.00, 0.00, 25.00, 16.50, 10.00, 50.00, 50.00, 62.50],
   [1.30, 7.50, 20.00, 55.00, 29.50, 5.00, 25.00, 75.00, 95.00],
   [1.50, 1.00, 37.50, 5.00, 20.00, 50.00, 50.00, 75.00, 95.00],
   [1.50, 12.70, 26.25, 40.00, 43.50, 75.00, 75.00, 75.00, 95.00]]

/-- Column `c` of a table, read top to bottom (as `df.melt` reads it). -/
def column (t : List (List ℚ)) (c : ℕ) : List ℚ := t.map (fun r => r.getD c 0)

/-- `df.melt()`: stack the `ncols` columns one after another. -/
def melt (t : List (List ℚ)) (ncols : ℕ) : List ℚ :=
  (List.range ncols).flatMap (column t)

/-- The `blotch` column after `df["blotch"] /= 100`. -/
def blotch : List ℚ := (melt raw 9).map (fun v => v / 100)

/-- `df["site"] = 1 + np.floor(df.index / 10).astype(int)` at index `i`. -/
def site (i : ℕ) : ℕ := 1 + i / 10

/-- `df["variety"] = 1 + (df.index % 10)` at index `i`. -/
def variety (i : ℕ) : ℕ := 1 + i % 10

/-! ### Contingency tables (meta-analysis notebook)

Source cells:

    df3 = pd.read_csv(io.StringIO(ss))            # 17 studies, 11 columns
    df_12y = df3[["e2i", "nei", "c2i", "nci"]]
    count1, nobs1, count2, nobs2 = df_12y.values.T
    dta = df_12y.values.T                          # 4 x 17
    dta_c = dta.copy()
    dta_c.T[0, 0] = 18
    dta_c.T[1, 0] = 22
    ...
    t, nt, c, nc = dta_c
    counts = np.column_stack([t, nt - t, c, nc - c])
    ctables = counts.T.reshape(2, 2, -1)

The CSV columns are, in order:
study, nei, nci, e1i, c1i, e2i, c2i, e3i, c3i, e4i, c4i;
two cells of the last row are empty (NaN), none of them in the four
columns the notebook selects. -/

/-- The inline CSV literal `ss`, parsed: 17 rows, 11 columns, empty
cells as `none`. -/
def df3 : List (List (Option ℚ)) :=
  [[some 1, some 19, some 22, some 16, some 20, some 11, some 12, some 4, some 8, some 4, some 3],
   [some 2, some 34, some 35, some 22, some 22, some 18, some 12, some 15, some 8, some 15, some 6],
   [some 3, some 72, some 68, some 44, some 40, some 21, some 15, some 10, some 3, some 3, some 0],
   [some 4, some 22, some 20, some 19, some 12, some 14, some 5, some 5, some 4, some 2, some 3],
   [some 5, some 70, some 32, some 62, some 27, some 42, some 13, some 26, some 6, some 15, some 5],
   [some 6, some 183, some 94, some 130, some 65, some 80, some 33, some 47, some 14, some 30, some 11],
   [some 7, some 26, some 50, some 24, some 30, some 13, some 18, some 5, some 10, some 3, some 9],
   [some 8, some 61, some 55, some 51, some 44, some 37, some 30, some 19, some 19, some 11, some 15],
   [some 9, some 36, some 25, some 30, some 17, some 23, some 12, some 13, some 4, some 10, some 4],
   [some 10, some 45, some 35, some 43, some 35, some 19, some 14, some 8, some 4, some 6, some 0],
   [some 11, some 246, some 208, some 169, some 139, some 106, some 76, some 67, some 42, some 51, some 35],
   [some 12, some 386, some 141, some 279, some 97, some 170, some 46, some 97, some 21, some 73, some 8],
   [some 13, some 59, some 32, some 56, some 30, some 34, some 17, some 21, some 9, some 20, some 7],
   [some 14, some 45, some 15, some 42, some 10, some 18, some 3, some 9, some 1, some 9, some 1],
   [some 15, some 14, some 18, some 14, some 18, some 13, some 14, some 12, some 13, some 9, some 12],
   [some 16, some 26, some 19, some 21, some 15, some 12, some 10, some 6, some 4, some 5, some 1],
   [some 17, some 74, some 75, none, none, some 42, some 40, none, none, some 23, some 30]]

/-- `df3[["e2i", "nei", "c2i", "nci"]]`: columns 5, 1, 6, 2 of `df3`,
one row per study (no selected cell is empty). -/
def df_12y : List (List ℚ) :=
  df3.map (fun r =>
    [((r.getD 5 none).getD 0), ((r.getD 1 none).getD 0),
     ((r.getD 6 none).getD 0), ((r.getD 2 none).getD 0)])

/-- `dta = df_12y.values.T`: row `r` (variable: e2i, nei, c2i, nci),
column `k` (study). -/
def dta (r k : ℕ) : ℚ := (df_12y.getD k []).getD r 0

/-- `dta_c`: copy of `dta` with `dta_c.T[0, 0] = 18` and
`dta_c.T[1, 0] = 22` (first variable of studies 0 and 1 changed). -/
def dta_c (r k : ℕ) : ℚ :=
  if r = 0 ∧ k = 0 then 18 else if r = 0 ∧ k = 1 then 22 else dta r k

/-- `t, nt, c, nc = dta_c`: the treatment counts row. -/
def t (k : ℕ) : ℚ := dta_c 0 k

/-- Treatment sample sizes row of `dta_c`. -/
def nt (k : ℕ) : ℚ := dta_c 1 k

/-- Control counts row of `dta_c`. -/
def c (k : ℕ) : ℚ := dta_c 2 k

/-- Control sample sizes row of `dta_c`. -/
def nc (k : ℕ) : ℚ := dta_c 3 k

/-- `counts = np.column_stack([t, nt - t, c, nc - c])`: study `k`,
column `j`. -/
def counts (k j : ℕ) : ℚ := [t k, nt k - t k, c k, nc k - c k].getD j 0

/-- `ctables = counts.T.reshape(2, 2, -1)`: the flat order of the 4 x 17
array `counts.T` places entry `(i, j, k)` of the 2 x 2 x 17 result at
row `2 * i + j`, column `k` of `counts.T`, i.e. at `counts k (2*i+j)`. -/
def ctables (i j k : ℕ) : ℚ := counts k (2 * i + j)

/-! ### Syntax of the notebooks' own function definitions

The three notebooks define exactly four functions of their own:
the two methods of `class vf` (quasi-binomial notebook), and
`fit_model` and the lambda `get_y` (quantile-regression notebook).
The meta-analysis notebook defines none.  Each body is transcribed
below as a small expression tree. -/

/-- Python expressions, as far as the notebooks use them.  `listcat` is
the `+` operator applied to two lists (concatenation, not arithmetic);
`kw` is a keyword argument; `pow` is `**` with an integer literal
exponent. -/
inductive NExpr where
  | var (s : String)
  | num (q : ℚ)
  | str (s : String)
  | add (a b : NExpr)
  | sub (a b : NExpr)
  | mul (a b : NExpr)
  | div (a b : NExpr)
  | pow (a : NExpr) (n : ℕ)
  | listcat (a b : NExpr)
  | attr (base : NExpr) (fld : String)
  | call0 (fn : NExpr)
  | call1 (fn : NExpr) (arg : NExpr)
  | kw (nm : String) (value : NExpr)
  | listnil
  | listcons (hd tl : NExpr)
deriving DecidableEq

/-- Does the expression perform any arithmetic of its own
(`+ - * / **` on numbers)?  List concatenation, attribute access,
calls and literals are not arithmetic. -/
def usesArith : NExpr → Bool
  | .var _ => false
  | .num _ => false
  | .str _ => false
  | .add _ _ => true
  | .sub _ _ => true
  | .mul _ _ => true
  | .div _ _ => true
  | .pow _ _ => true
  | .listcat a b => usesArith a || usesArith b
  | .attr b _ => usesArith b
  | .call0 f => usesArith f
  | .call1 f a => usesArith f || usesArith a
  | .kw _ v => usesArith v
  | .listnil => false
  | .listcons h t => usesArith h || usesArith t

/-- Value of a pure arithmetic expression under an environment for the
variables (non-arithmetic constructs evaluate to 0; they do not occur
in the bodies this is applied to). -/
def evalArith (env : String → ℚ) : NExpr → ℚ
  | .var s => env s
  | .num q => q
  | .str _ => 0
  | .add a b => evalArith env a + evalArith env b
  | .sub a b => evalArith env a - evalArith env b
  | .mul a b => evalArith env a * evalArith env b
  | .div a b => evalArith env a / evalArith env b
  | .pow a n => evalArith env a ^ n
  | .listcat _ _ => 0
  | .attr _ _ => 0
  | .call0 _ => 0
  | .call1 _ _ => 0
  | .kw _ _ => 0
  | .listnil => 0
  | .listcons _ _ => 0

/-- A function defined by notebook code: its name, parameters, and its
body as a list of statement expressions. -/
structure DefinedFunction where
  name : String
  params : List String
  body : List NExpr
deriving DecidableEq

/-- Does any statement of the body perform arithmetic? -/
def bodyUsesArith (f : DefinedFunction) : Bool := f.body.any usesArith

/-- `def __call__(self, mu): return mu ** 2 * (1 - mu) ** 2`. -/
def vfCallFun : DefinedFunction :=
  { name := "vf.__call__", params := ["self", "mu"],
    body := [.mul (.pow (.var "mu") 2) (.pow (.sub (.num 1) (.var "mu")) 2)] }

/-- `def deriv(self, mu): return 2 * mu - 6 * mu ** 2 + 4 * mu ** 3`. -/
def vfDerivFun : DefinedFunction :=
  { name := "vf.deriv", params := ["self", "mu"],
    body := [.add (.sub (.mul (.num 2) (.var "mu"))
                        (.mul (.num 6) (.pow (.var "mu") 2)))
                  (.mul (.num 4) (.pow (.var "mu") 3))] }

/-- `def fit_model(q): res = mod.fit(q=q); return [q, res.params[...],
res.params[...]] + res.conf_int().ix[...].tolist()`
(quantile-regression notebook). -/
def fitModelFun : DefinedFunction :=
  { name := "fit_model", params := ["q"],
    body :=
      [.call1 (.attr (.var "mod") "fit") (.kw "q" (.var "q")),
       .listcat
         (.listcons (.var "q")
           (.listcons (.call1 (.attr (.attr (.var "res") "params") "getitem")
                              (.str "Intercept"))
             (.listcons (.call1 (.attr (.attr (.var "res") "params") "getitem")
                                (.str "income"))
               .listnil)))
         (.call0 (.attr (.call1 (.attr (.call0 (.attr (.var "res") "conf_int")) "ix")
                                (.str "income"))
                        "tolist"))] }

/-- `get_y = lambda a, b: a + b * x` (quantile-regression notebook). -/
def getYFun : DefinedFunction :=
  { name := "get_y", params := ["a", "b"],
    body := [.add (.var "a") (.mul (.var "b") (.var "x"))] }

/-- All functions defined by the notebooks' own code. -/
def notebookDefinedFunctions : List DefinedFunction :=
  [vfCallFun, vfDerivFun, fitModelFun, getYFun]

/-! ### Catalogue of model-fitting invocations (all three notebooks)

One entry per statistical-fitting call in the notebook sources, in
source order, with the library entry point that implements it. -/

/-- The libraries the notebooks import, plus a marker for code local to
the notebooks themselves. -/
inductive Library where
  | statsmodels
  | pandas
  | numpy
  | matplotlib
  | scipy
  | notebookLocal
deriving DecidableEq

/-- One model-fitting call as it appears in a notebook cell. -/
structure FitInvocation where
  notebook : String
  callSite : String
  entryPoint : String
  library : Library
  dataFromNotebook : Bool
deriving DecidableEq

/-- Every statistical model-fitting invocation in the three notebooks,
in source order. -/
def fitInvocations : List FitInvocation :=
  [{ notebook := "quasibinomial", callSite := "result1 = model1.fit(scale=X2)",
     entryPoint := "GLM.fit", library := .statsmodels, dataFromNotebook := true },
   { notebook := "quasibinomial", callSite := "result2 = model2.fit(scale=X2)",
     entryPoint := "GLM.fit", library := .statsmodels, dataFromNotebook := true },
   { notebook := "quantile_regression", callSite := "res = mod.fit(q=.5)",
     entryPoint := "QuantReg.fit", library := .statsmodels, dataFromNotebook := true },
   { notebook := "quantile_regression", callSite := "res = mod.fit(q=q) in fit_model",
     entryPoint := "QuantReg.fit", library := .statsmodels, dataFromNotebook := true },
   { notebook := "quantile_regression", callSite := "ols = smf.ols(foodexp ~ income, data).fit()",
     entryPoint := "OLS.fit", library := .statsmodels, dataFromNotebook := true },
   { notebook := "metaanalysis1", callSite := "eff, var_eff = effectsize_smd(...)",
     entryPoint := "effectsize_smd", library := .statsmodels, dataFromNotebook := true },
   { notebook := "metaanalysis1", callSite := "res3 = combine_effects(method_re=chi2, use_t=True)",
     entryPoint := "combine_effects", library := .statsmodels, dataFromNotebook := true },
   { notebook := "metaanalysis1", callSite := "res3 = combine_effects(method_re=chi2, use_t=False)",
     entryPoint := "combine_effects", library := .statsmodels, dataFromNotebook := true },
   { notebook := "metaanalysis1", callSite := "res4 = combine_effects(method_re=iterated)",
     entryPoint := "combine_effects", library := .statsmodels, dataFromNotebook := true },
   { notebook := "metaanalysis1", callSite := "res2_DL = combine_effects(method_re=dl)",
     entryPoint := "combine_effects", library := .statsmodels, dataFromNotebook := true },
   { notebook := "metaanalysis1", callSite := "res2_PM = combine_effects(method_re=pm)",
     entryPoint := "combine_effects", library := .statsmodels, dataFromNotebook := true },
   { notebook := "metaanalysis1", callSite := "effectsize_2proportions(*dta, statistic=rd)",
     entryPoint := "effectsize_2proportions", library := .statsmodels, dataFromNotebook := true },
   { notebook := "metaanalysis1", callSite := "res5 = combine_effects(method_re=iterated) on dta",
     entryPoint := "combine_effects", library := .statsmodels, dataFromNotebook := true },
   { notebook := "metaanalysis1", callSite := "effectsize_2proportions(*dta_c, statistic=rd)",
     entryPoint := "effectsize_2proportions", library := .statsmodels, dataFromNotebook := true },
   { notebook := "metaanalysis1", callSite := "res5 = combine_effects(method_re=iterated) on dta_c",
     entryPoint := "combine_effects", library := .statsmodels, dataFromNotebook := true },
   { notebook := "metaanalysis1", callSite := "res5 = combine_effects(method_re=chi2) on dta_c",
     entryPoint := "combine_effects", library := .statsmodels, dataFromNotebook := true },
   { notebook := "metaanalysis1", callSite := "effectsize_2proportions(*dta_c, statistic=or)",
     entryPoint := "effectsize_2proportions", library := .statsmodels, dataFromNotebook := true },
   { notebook := "metaanalysis1", callSite := "res = combine_effects(method_re=chi2) on odds ratios",
     entryPoint := "combine_effects", library := .statsmodels, dataFromNotebook := true },
   { notebook := "metaanalysis1", callSite := "res_glm = mod_glm.fit(scale=1.0)",
     entryPoint := "GLM.fit", library := .statsmodels, dataFromNotebook := true },
   { notebook := "metaanalysis1", callSite := "res_glm = mod_glm.fit(scale=x2)",
     entryPoint := "GLM.fit", library := .statsmodels, dataFromNotebook := true },
   { notebook := "metaanalysis1", callSite := "st = smstats.StratifiedTable(ctables)",
     entryPoint := "StratifiedTable", library := .statsmodels, dataFromNotebook := true }]

/-! ### Catalogue of side-effecting operations (frame conditions)

One entry per notebook operation, classified by the scope it affects:
a kernel local variable, the cell's displayed output, an in-process
library configuration table, a file on disk, or the network.
`survivesRun` records whether the effect outlives the notebook run. -/

/-- What an operation touches. -/
inductive EffectScope where
  | localVar
  | outputCell
  | libConfig
  | fileWrite
  | network
deriving DecidableEq

/-- One side-effecting operation in a notebook cell. -/
structure NbOperation where
  notebook : String
  descr : String
  scope : EffectScope
  survivesRun : Bool
deriving DecidableEq

/-- The notebooks' operations, in source order.  Assignments bind or
mutate kernel-local objects; `print` and expression display and the
pyplot figure-building calls produce the cell's output; `pd.set_option`
and `matplotlib.rc` and the `%matplotlib inline` magic mutate in-process
library configuration.  Nothing writes a file or touches the network,
and no effect survives the run. -/
def notebookOperations : List NbOperation :=
  [{ notebook := "quasibinomial", descr := "imports; raw = inline literal buffer",
     scope := .localVar, survivesRun := false },
   { notebook := "quasibinomial", descr := "df = pd.read_csv; melt; site; variety; rename; drop; blotch /= 100",
     scope := .localVar, survivesRun := false },
   { notebook := "quasibinomial", descr := "model1 = sm.GLM.from_formula; result1 = model1.fit",
     scope := .localVar, survivesRun := false },
   { notebook := "quasibinomial", descr := "print(result1.summary())",
     scope := .outputCell, survivesRun := false },
   { notebook := "quasibinomial", descr := "plt.clf/grid/plot/xlabel/ylabel residual plot 1",
     scope := .outputCell, survivesRun := false },
   { notebook := "quasibinomial", descr := "class vf definition",
     scope := .localVar, survivesRun := false },
   { notebook := "quasibinomial", descr := "bin = sm.families.Binomial(); bin.variance = vf()",
     scope := .localVar, survivesRun := false },
   { notebook := "quasibinomial", descr := "model2; result2 = model2.fit",
     scope := .localVar, survivesRun := false },
   { notebook := "quasibinomial", descr := "print(result2.summary())",
     scope := .outputCell, survivesRun := false },
   { notebook := "quasibinomial", descr := "plt.clf/grid/plot/xlabel/ylabel residual plot 2",
     scope := .outputCell, survivesRun := false },
   { notebook := "quantile_regression", descr := "imports; data = sm.datasets.engel.load_pandas().data",
     scope := .localVar, survivesRun := false },
   { notebook := "quantile_regression", descr := "data.head() display",
     scope := .outputCell, survivesRun := false },
   { notebook := "quantile_regression", descr := "mod = smf.quantreg; res = mod.fit",
     scope := .localVar, survivesRun := false },
   { notebook := "quantile_regression", descr := "print res.summary()",
     scope := .outputCell, survivesRun := false },
   { notebook := "quantile_regression", descr := "quantiles; def fit_model; models; ols assignments",
     scope := .localVar, survivesRun := false },
   { notebook := "quantile_regression", descr := "print models; print ols",
     scope := .outputCell, survivesRun := false },
   { notebook := "quantile_regression", descr := "x; get_y; fig, ax = plt.subplots; scatter plot",
     scope := .outputCell, survivesRun := false },
   { notebook := "quantile_regression", descr := "rc(text, usetex=True)",
     scope := .libConfig, survivesRun := false },
   { notebook := "quantile_regression", descr := "p1..p6 plt.plot; plt.show",
     scope := .outputCell, survivesRun := false },
   { notebook := "metaanalysis1", descr := "%matplotlib inline magic",
     scope := .libConfig, survivesRun := false },
   { notebook := "metaanalysis1", descr := "imports of numpy, pandas, scipy, statsmodels",
     scope := .localVar, survivesRun := false },
   { notebook := "metaanalysis1", descr := "pd.set_option(display.width, 100)",
     scope := .libConfig, survivesRun := false },
   { notebook := "metaanalysis1", descr := "data, colnames, rownames, dframe1 assignments",
     scope := .localVar, survivesRun := false },
   { notebook := "metaanalysis1", descr := "mean2..nobs1 unpacking; rownames display",
     scope := .localVar, survivesRun := false },
   { notebook := "metaanalysis1", descr := "eff, var_eff = effectsize_smd",
     scope := .localVar, survivesRun := false },
   { notebook := "metaanalysis1", descr := "res3/res4 = combine_effects; summary prints",
     scope := .outputCell, survivesRun := false },
   { notebook := "metaanalysis1", descr := "res3.plot_forest and figure sizing",
     scope := .outputCell, survivesRun := false },
   { notebook := "metaanalysis1", descr := "eff, var_eff, rownames Kacker literals",
     scope := .localVar, survivesRun := false },
   { notebook := "metaanalysis1", descr := "res2_DL/res2_PM = combine_effects; prints; forest plots",
     scope := .outputCell, survivesRun := false },
   { notebook := "metaanalysis1", descr := "df3 = pd.read_csv of inline literal; df_12y; dta",
     scope := .localVar, survivesRun := false },
   { notebook := "metaanalysis1", descr := "dta_c = dta.copy(); dta_c.T[0,0] = 18; dta_c.T[1,0] = 22",
     scope := .localVar, survivesRun := false },
   { notebook := "metaanalysis1", descr := "res5 = combine_effects runs; prints; forest plots",
     scope := .outputCell, survivesRun := false },
   { notebook := "metaanalysis1", descr := "weights; mod_glm = GLM; res_glm = mod_glm.fit",
     scope := .localVar, survivesRun := false },
   { notebook := "metaanalysis1", descr := "print res_glm summary tables; conf_int comparisons",
     scope := .outputCell, survivesRun := false },
   { notebook := "metaanalysis1", descr := "t, nt, c, nc = dta_c; counts; ctables assignments",
     scope := .localVar, survivesRun := false },
   { notebook := "metaanalysis1", descr := "st = smstats.StratifiedTable(ctables)",
     scope := .localVar, survivesRun := false },
   { notebook := "metaanalysis1", descr := "st.logodds_pooled and related displays; prints of tests and summary",
     scope := .outputCell, survivesRun := false }]

/-! ### Catalogue of data inputs -/

/-- Where an input datum comes from. -/
inductive InputSource where
  | inlineLiteral
  | libraryDatasetAPI
  | externalFile
  | network
  | cliArg
deriving DecidableEq

/-- One data input consumed by a notebook. -/
structure NbInput where
  notebook : String
  descr : String
  source : InputSource
deriving DecidableEq

/-- Every datum any notebook consumes, with its provenance. -/
def notebookInputs : List NbInput :=
  [{ notebook := "quasibinomial", descr := "raw: inline 10x9 percentage literal",
     source := .inlineLiteral },
   { notebook := "quantile_regression", descr := "sm.datasets.engel.load_pandas().data",
     source := .libraryDatasetAPI },
   { notebook := "metaanalysis1", descr := "data: six-study list literal",
     source := .inlineLiteral },
   { notebook := "metaanalysis1", descr := "eff, var_eff, rownames: interlaboratory literals",
     source := .inlineLiteral },
   { notebook := "metaanalysis1", descr := "ss: inline 17-study CSV literal",
     source := .inlineLiteral },
   { notebook := "metaanalysis1", descr := "R meta reference constants 0.4428... and 0.0892...",
     source := .inlineLiteral }]

/-! ### Notebook cells and their sequential execution -/

/-- One code cell of a notebook: its position and whether its source
contains an exception handler (a try/except block).  Transcribed from
the notebook sources: no cell of any of the three notebooks contains
one. -/
structure CodeCell where
  notebook : String
  idx : ℕ
  hasHandler : Bool
deriving DecidableEq

/-- The 8 code cells of the quasi-binomial notebook, none with a
handler. -/
def quasibinomialCells : List CodeCell :=
  (List.range 8).map (fun i => { notebook := "quasibinomial", idx := i, hasHandler := false })

/-- The 5 code cells of the quantile-regression notebook, none with a
handler. -/
def quantregCells : List CodeCell :=
  (List.range 5).map (fun i => { notebook := "quantile_regression", idx := i, hasHandler := false })

/-- The 44 code cells of the meta-analysis notebook, none with a
handler. -/
def metaanalysisCells : List CodeCell :=
  (List.range 44).map (fun i => { notebook := "metaanalysis1", idx := i, hasHandler := false })

/-- All code cells of the repository. -/
def allCells : List CodeCell := quasibinomialCells ++ quantregCells ++ metaanalysisCells

/-- Modelled from the spec: the notebook kernel itself is not part of
the repository; per the spec, execution is a single-threaded linear
sequence of cell evaluations that halts on the first exception.  A
cell's effect is a function from kernel state to `Except`: normal
completion with a new state, or a raised exception.  `runCells` folds
the cells in source order, short-circuiting on the first error. -/
def runCells {σ ε : Type} : List (σ → Except ε σ) → σ → Except ε σ
  | [], s => Except.ok s
  | cl :: cs, s =>
    match cl s with
    | Except.error e => Except.error e
    | Except.ok s1 => runCells cs s1

/-- Modelled from the spec: as `runCells`, but also returning the list
of (0-based) indices of the cells that were actually evaluated, the
first cell being numbered `i`. -/
def runTrace {σ ε : Type} : List (σ → Except ε σ) → σ → ℕ → Except ε σ × List ℕ
  | [], s, _ => (Except.ok s, [])
  | cl :: cs, s, i =>
    match cl s with
    | Except.error e => (Except.error e, [i])
    | Except.ok s1 =>
      let p := runTrace cs s1 (i + 1)
      (p.1, i :: p.2)

theorem runTrace_of_ok {σ ε : Type} (cs : List (σ → Except ε σ)) (s : σ) (i : ℕ)
    (s1 : σ) (h : runCells cs s = Except.ok s1) :
    runTrace cs s i = (Except.ok s1, List.range' i cs.length) := by
  induction cs generalizing s i with
  | nil =>
    simp only [runCells] at h
    cases h
    simp [runTrace, List.range']
  | cons cl cs ih =>
    simp only [runCells] at h
    cases hcl : cl s with
    | error e => rw [hcl] at h; exact absurd h (by simp)
    | ok s2 =>
      rw [hcl] at h
      simp only [runTrace, hcl]
      rw [ih s2 (i + 1) h]
      simp [List.range']

theorem runCells_append {σ ε : Type} (cs1 cs2 : List (σ → Except ε σ)) (s : σ)
    (s1 : σ) (h : runCells cs1 s = Except.ok s1) :
    runCells (cs1 ++ cs2) s = runCells cs2 s1 := by
  induction cs1 generalizing s with
  | nil =>
    simp only [runCells] at h
    cases h
    simp
  | cons cl cs ih =>
    simp only [runCells] at h ⊢
    cases hcl : cl s with
    | error e => rw [hcl] at h; exact absurd h (by simp)
    | ok s2 =>
      rw [hcl] at h
      simp only [List.cons_append, runCells, hcl]
      exact ih s2 h

theorem runTrace_append {σ ε : Type} (cs1 cs2 : List (σ → Except ε σ)) (s : σ) (i : ℕ)
    (s1 : σ) (h : runCells cs1 s = Except.ok s1) :
    runTrace (cs1 ++ cs2) s i =
      ((runTrace cs2 s1 (i + cs1.length)).1,
        List.range' i cs1.length ++ (runTrace cs2 s1 (i + cs1.length)).2) := by
  induction cs1 generalizing s i with
  | nil =>
    simp only [runCells] at h
    cases h
    simp [List.range']
  | cons cl cs ih =>
    simp only [runCells] at h
    cases hcl : cl s with
    | error e => rw [hcl] at h; exact absurd h (by simp)
    | ok s2 =>
      rw [hcl] at h
      simp only [List.cons_append, runTrace, hcl]
      simp only [List.append_eq]
      rw [ih s2 (i + 1) h]
      simp only [List.range', List.length_cons]
      rw [show i + 1 + cs.length = i + (cs.length + 1) from by ring]
      simp [List.cons_append]

/-! ## Claim theorems -/

/-- C3: the custom variance-function class `vf` is internally
consistent: `vf.deriv(mu) = 2*mu - 6*mu^2 + 4*mu^3` is the exact
derivative with respect to `mu` of `vf.__call__(mu) = mu^2 * (1-mu)^2`,
as an identity of polynomials over the rationals: `vf.call` is the
polynomial with coefficients `vfCallCoeffs`, and its formal derivative
evaluates everywhere to `vf.deriv`; moreover `vf.deriv mu` is the
analytic derivative of `vf.call` at every `mu`. -/
theorem vf_deriv_is_exact_derivative_of_vf_call :
    (∀ mu : ℚ, HasDerivAt vf.call (vf.deriv mu) mu) ∧
    (∀ mu : ℚ, vf.call mu = polyEval vfCallCoeffs mu) ∧
    (∀ mu : ℚ, polyEval (polyDeriv vfCallCoeffs) mu = vf.deriv mu) := by
  have hfun : polyEval vfCallCoeffs = vf.call := by
    funext x
    simp only [polyEval, vfCallCoeffs, vf.call, List.foldr]
    ring
  have hval : ∀ mu : ℚ, polyEval (polyDeriv vfCallCoeffs) mu = vf.deriv mu := by
    intro mu
    simp only [polyEval, polyDeriv, polyAdd, vfCallCoeffs, vf.deriv, List.foldr]
    ring
  refine ⟨?_, ?_, hval⟩
  · intro mu
    have h := hasDerivAt_polyEval vfCallCoeffs mu
    rw [hfun, hval mu] at h
    exact h
  · intro mu
    rw [hfun]

lemma raw_rows_length : ∀ row ∈ raw, row.length = 9 := by decide

lemma blotch_getD_eq :
    ∀ i, i < 90 → blotch.getD i 0 = (raw.getD (i % 10) []).getD (i / 10) 0 / 100 := by
  intro i hi
  interval_cases i <;> rfl

lemma raw_values_bounds : ∀ row ∈ raw, ∀ v ∈ row, 0 ≤ v ∧ v ≤ 100 := by
  intro row hrow
  fin_cases hrow <;> (intro v hv; fin_cases hv <;> norm_num)

lemma blotch_values_bounds : ∀ b ∈ blotch, 0 ≤ b ∧ b ≤ 1 := by
  intro b hb
  simp only [blotch, List.mem_map] at hb
  obtain ⟨a, ha, rfl⟩ := hb
  simp only [melt, List.mem_flatMap, List.mem_range] at ha
  obtain ⟨cc, _, ha⟩ := ha
  simp only [column, List.mem_map] at ha
  obtain ⟨row, hrow, rfl⟩ := ha
  rcases Nat.lt_or_ge cc row.length with hcc | hcc
  · have hmem : row.getD cc 0 ∈ row := by
      rw [List.getD_eq_getElem row 0 hcc]
      exact List.getElem_mem hcc
    obtain ⟨h0, h100⟩ := raw_values_bounds row hrow _ hmem
    exact ⟨div_nonneg h0 (by norm_num), by
      rw [div_le_one (by norm_num : (0:ℚ) < 100)]
      exact h100⟩
  · rw [List.getD_eq_default row 0 hcc]
    norm_num

/-- C4: the quasi-binomial notebook parses the inline 10-row by
9-column literal of percentages into 90 observations; the blotch value
at melted index `i` is the raw literal entry in row `i % 10`, column
`i / 10`, divided by 100; every raw value lies in [0, 100], hence every
blotch proportion lies in [0, 1]. -/
theorem blotch_is_raw_over_100_in_unit_interval :
    raw.length = 10 ∧
    (∀ row ∈ raw, row.length = 9) ∧
    blotch.length = 90 ∧
    (∀ i, i < 90 → blotch.getD i 0 = (raw.getD (i % 10) []).getD (i / 10) 0 / 100) ∧
    (∀ row ∈ raw, ∀ v ∈ row, 0 ≤ v ∧ v ≤ 100) ∧
    (∀ b ∈ blotch, 0 ≤ b ∧ b ≤ 1) :=
  ⟨rfl, raw_rows_length, rfl, blotch_getD_eq, raw_values_bounds, blotch_values_bounds⟩

/-- C4 witness: at index 35 (row 5, column 3 of the raw layout) the
blotch value is the raw entry 0.01 divided by 100, i.e. 1/10000, and it
lies in [0, 1]. -/
theorem blotch_witness :
    blotch.getD 35 0 = (raw.getD 5 []).getD 3 0 / 100 ∧
    blotch.getD 35 0 = 1 / 10000 ∧
    0 ≤ blotch.getD 35 0 ∧ blotch.getD 35 0 ≤ 1 := by
  have h1 : blotch.getD 35 0 = (raw.getD 5 []).getD 3 0 / 100 :=
    blotch_is_raw_over_100_in_unit_interval.2.2.2.1 35 (by decide)
  have h2 : blotch.getD 35 0 = 1 / 10000 := by
    rw [h1]
    have : (raw.getD 5 []).getD 3 0 = (0.01 : ℚ) := rfl
    rw [this]
    norm_num
  exact ⟨h1, h2, by rw [h2]; norm_num, by rw [h2]; norm_num⟩

/-- C5: in the melted 90-row table, row `i` gets
`site = 1 + floor(i / 10)` and `variety = 1 + (i mod 10)`; `site` takes
exactly the 9 values 1..9 and indexes the 9 columns (varieties) of the
raw 10x9 layout, `variety` takes exactly the 10 values 1..10 and
indexes the 10 rows (sites), and each (site, variety) pair occurs
exactly once. -/
theorem site_variety_labelling :
    (∀ i, i < 90 → site i = 1 + i / 10 ∧ variety i = 1 + i % 10) ∧
    (∀ i, i < 90 → 1 ≤ site i ∧ site i ≤ 9 ∧ 1 ≤ variety i ∧ variety i ≤ 10) ∧
    (∀ s, s < 10 → 1 ≤ s → ∃ i, i < 90 ∧ site i = s) ∧
    (∀ v, v < 11 → 1 ≤ v → ∃ i, i < 90 ∧ variety i = v) ∧
    (∀ i, i < 90 → ∀ j, j < 90 → site i = site j → variety i = variety j → i = j) ∧
    (∀ i, i < 90 →
      blotch.getD i 0 = (raw.getD (variety i - 1) []).getD (site i - 1) 0 / 100) := by
  refine ⟨fun i _ => ⟨rfl, rfl⟩, ?_, ?_, ?_, ?_, ?_⟩
  · intro i hi
    simp only [site, variety]
    omega
  · intro s hs hs1
    refine ⟨(s - 1) * 10, by omega, ?_⟩
    simp only [site]
    omega
  · intro v hv hv1
    refine ⟨v - 1, by omega, ?_⟩
    simp only [variety]
    omega
  · intro i hi j hj hs hv
    simp only [site, variety] at hs hv
    omega
  · intro i hi
    have h := blotch_getD_eq i hi
    simp only [site, variety]
    simpa using h

/-- C5 witness: at index 42, `site = 5` (column 4 of the raw layout)
and `variety = 3` (row 2), and the pair determines the index. -/
theorem site_variety_witness :
    (1 ≤ site 42 ∧ site 42 ≤ 9 ∧ 1 ≤ variety 42 ∧ variety 42 ≤ 10) ∧
    site 42 = 5 ∧ variety 42 = 3 :=
  ⟨site_variety_labelling.2.1 42 (by decide), by decide, by decide⟩

/-- C7: in the meta-analysis notebook, the 2x2xK contingency tables
built from the stacked vectors `t, nt, c, nc` satisfy, for every
stratum `k < 17`: `ctables[0,0,k] = t_k`, `ctables[0,1,k] = nt_k - t_k`,
`ctables[1,0,k] = c_k`, `ctables[1,1,k] = nc_k - c_k`; hence the row
sums of each 2x2 table are the sample sizes `nt_k` and `nc_k`. -/
theorem ctables_entries_and_row_sums :
    df_12y.length = 17 ∧
    (∀ k, k < 17 →
      ctables 0 0 k = t k ∧
      ctables 0 1 k = nt k - t k ∧
      ctables 1 0 k = c k ∧
      ctables 1 1 k = nc k - c k ∧
      ctables 0 0 k + ctables 0 1 k = nt k ∧
      ctables 1 0 k + ctables 1 1 k = nc k) := by
  refine ⟨rfl, ?_⟩
  intro k hk
  refine ⟨rfl, rfl, rfl, rfl, ?_, ?_⟩
  · show t k + (nt k - t k) = nt k
    ring
  · show c k + (nc k - c k) = nc k
    ring

/-- C7 witness: stratum 3 (study 4 of the CSV), where
`t = 14, nt = 22, c = 5, nc = 20`: the table entries and row sums come
out concretely right. -/
theorem ctables_witness :
    (ctables 0 0 3 + ctables 0 1 3 = nt 3 ∧ ctables 1 0 3 + ctables 1 1 3 = nc 3) ∧
    ctables 0 0 3 = 14 ∧ ctables 0 1 3 = 8 ∧ nt 3 = 22 ∧ nc 3 = 20 := by
  refine ⟨⟨(ctables_entries_and_row_sums.2 3 (by decide)).2.2.2.2.1,
    (ctables_entries_and_row_sums.2 3 (by decide)).2.2.2.2.2⟩, rfl, ?_, rfl, rfl⟩
  have h : ctables 0 1 3 = (22 : ℚ) - 14 := rfl
  rw [h]
  norm_num

/-- C1 counterexample: the claim that no function defined in the
notebooks performs numerical computation of its own fails on the class
`vf`: the body of `vf.__call__` is the arithmetic formula
`mu ** 2 * (1 - mu) ** 2`. -/
theorem vf_call_body_is_numerical :
    vfCallFun ∈ notebookDefinedFunctions ∧ bodyUsesArith vfCallFun = true ∧
    ¬ (∀ f ∈ notebookDefinedFunctions, bodyUsesArith f = false) := by
  refine ⟨List.mem_cons_self _ _, rfl, ?_⟩
  intro h
  have hfalse := h vfCallFun (List.mem_cons_self _ _)
  rw [show bodyUsesArith vfCallFun = true from rfl] at hfalse
  exact absurd hfalse (by decide)

/-- C1 amended: the functions the notebooks define perform no numerical
computation of their own except the custom variance-function class `vf`
(whose two method bodies are the fixed polynomial formulas
`mu^2 * (1-mu)^2` and `2*mu - 6*mu^2 + 4*mu^3`) and the plotting helper
lambda `get_y` (the affine formula `a + b * x`); in particular
`fit_model` only sequences library calls, and the arithmetic bodies
evaluate to exactly those formulas. -/
theorem arithmetic_confined_to_vf_and_get_y :
    (notebookDefinedFunctions.filter bodyUsesArith).map DefinedFunction.name
      = ["vf.__call__", "vf.deriv", "get_y"] ∧
    bodyUsesArith fitModelFun = false ∧
    (∀ mu : ℚ,
      evalArith (fun s => if s = "mu" then mu else 0) (vfCallFun.body.getD 0 .listnil)
        = vf.call mu) ∧
    (∀ mu : ℚ,
      evalArith (fun s => if s = "mu" then mu else 0) (vfDerivFun.body.getD 0 .listnil)
        = vf.deriv mu) ∧
    (∀ a b x : ℚ,
      evalArith (fun s => if s = "a" then a else if s = "b" then b else x)
        (getYFun.body.getD 0 .listnil) = a + b * x) := by
  refine ⟨by decide, rfl, ?_, ?_, ?_⟩
  · intro mu
    simp [evalArith, vfCallFun, vf.call]
  · intro mu
    simp [evalArith, vfDerivFun, vf.deriv]
  · intro a b x
    simp [evalArith, getYFun]

/-- C2: every statistical model-fitting operation the notebooks invoke
(GLM fitting, quantile-regression fitting, `combine_effects`,
`StratifiedTable`, effect-size computation) is a call into the imported
external statsmodels library applied to data prepared by the notebook,
and none of its entry points is a function the notebooks define
themselves. -/
theorem fitting_delegated_to_statsmodels :
    fitInvocations ≠ [] ∧
    (∀ inv ∈ fitInvocations,
      inv.library = Library.statsmodels ∧ inv.dataFromNotebook = true) ∧
    (∀ ep ∈ ["GLM.fit", "QuantReg.fit", "combine_effects", "StratifiedTable"],
      ep ∈ fitInvocations.map FitInvocation.entryPoint) ∧
    (∀ inv ∈ fitInvocations,
      inv.entryPoint ∉ notebookDefinedFunctions.map DefinedFunction.name) := by
  refine ⟨by decide, by decide, by decide, by decide⟩

/-- C2 witness: the Mantel-Haenszel pooling entry point is among the
catalogued invocations, and the catalogue has its 21 entries. -/
theorem fitting_delegated_witness :
    "StratifiedTable" ∈ fitInvocations.map FitInvocation.entryPoint ∧
    fitInvocations.length = 21 :=
  ⟨fitting_delegated_to_statsmodels.2.2.1 "StratifiedTable" (by decide), by decide⟩

/-- C6: no notebook cell contains an exception handler, and in the
sequential error-monad execution model an exception raised in any cell
propagates: the whole run errors and the cells after the raising one
are never evaluated (the executed-trace is exactly the indices up to
and including the raising cell). -/
theorem no_handler_and_exception_halts :
    (∀ cell ∈ allCells, cell.hasHandler = false) ∧
    (∀ (σ ε : Type) (cs1 cs2 : List (σ → Except ε σ)) (cl : σ → Except ε σ)
      (s s1 : σ) (e : ε),
      runCells cs1 s = Except.ok s1 → cl s1 = Except.error e →
      runCells (cs1 ++ cl :: cs2) s = Except.error e ∧
      (runTrace (cs1 ++ cl :: cs2) s 0).2 = List.range (cs1.length + 1)) := by
  constructor
  · decide
  · intro σ ε cs1 cs2 cl s s1 e h1 h2
    constructor
    · rw [runCells_append cs1 (cl :: cs2) s s1 h1]
      simp [runCells, h2]
    · rw [runTrace_append cs1 (cl :: cs2) s 0 s1 h1]
      simp only [runTrace, h2]
      rw [List.range_succ, List.range_eq_range']
      simp

/-- C6 witness: a three-cell run over state ℕ whose middle cell raises
error 7: the run errors with 7 and only cells 0 and 1 execute. -/
theorem no_handler_witness :
    runCells [fun s => Except.ok (s + 1), fun _ => Except.error 7,
      fun s => Except.ok s] (0 : ℕ) = (Except.error 7 : Except ℕ ℕ) ∧
    (runTrace [fun s => Except.ok (s + 1), fun _ => Except.error 7,
      fun s => Except.ok s] (0 : ℕ) 0).2 = List.range 2 :=
  no_handler_and_exception_halts.2 ℕ ℕ [fun s => Except.ok (s + 1)]
    [fun s => Except.ok s] (fun _ => Except.error 7) 0 1 7 rfl rfl

/-- C8: each notebook is a fixed linear list of code cells (8, 5 and 44
cells respectively), and a completed run of any cell list evaluates
exactly the cells 0, 1, ..., n-1: the executed-trace equals
`List.range n`, has no duplicates, is strictly increasing (source
order), and counts every cell exactly once. -/
theorem cells_run_once_in_source_order :
    quasibinomialCells.length = 8 ∧ quantregCells.length = 5 ∧
    metaanalysisCells.length = 44 ∧
    (∀ (σ ε : Type) (cells : List (σ → Except ε σ)) (s s1 : σ),
      runCells cells s = Except.ok s1 →
      (runTrace cells s 0).1 = Except.ok s1 ∧
      (runTrace cells s 0).2 = List.range cells.length ∧
      (runTrace cells s 0).2.Nodup ∧
      List.Pairwise (· < ·) (runTrace cells s 0).2 ∧
      (∀ i, i < cells.length → (runTrace cells s 0).2.count i = 1)) := by
  refine ⟨rfl, rfl, rfl, ?_⟩
  intro σ ε cells s s1 h
  have ht := runTrace_of_ok cells s 0 s1 h
  rw [ht]
  have hr : List.range' 0 cells.length = List.range cells.length :=
    (List.range_eq_range' cells.length).symm
  refine ⟨rfl, hr, ?_, ?_, ?_⟩
  · rw [hr]; exact List.nodup_range cells.length
  · rw [hr]; exact List.pairwise_lt_range cells.length
  · intro i hi
    rw [hr]
    exact List.count_eq_one_of_mem (List.nodup_range _) (List.mem_range.mpr hi)

/-- C8 witness: a two-cell run over state ℕ that completes: the trace
is `[0, 1]` with no duplicates. -/
theorem cells_run_once_witness :
    (runTrace ([fun s => Except.ok (s + 1), fun s => Except.ok s] :
      List (ℕ → Except ℕ ℕ)) 0 0).2 = List.range 2 ∧
    (runTrace ([fun s => Except.ok (s + 1), fun s => Except.ok s] :
      List (ℕ → Except ℕ ℕ)) 0 0).2.Nodup :=
  ⟨(cells_run_once_in_source_order.2.2.2 ℕ ℕ
      [fun s => Except.ok (s + 1), fun s => Except.ok s] 0 1 rfl).2.1,
   (cells_run_once_in_source_order.2.2.2 ℕ ℕ
      [fun s => Except.ok (s + 1), fun s => Except.ok s] 0 1 rfl).2.2.1⟩

/-- C9 counterexample: the claim that no operation modifies anything
outside the kernel-local variables and the output cells fails:
`pd.set_option(display.width, 100)` (meta-analysis notebook, setup
cell) mutates the pandas in-process option registry. -/
theorem operation_outside_locals_exists :
    ¬ (∀ op ∈ notebookOperations,
        op.scope = EffectScope.localVar ∨ op.scope = EffectScope.outputCell) := by
  decide

/-- C9 amended: all data created by the notebooks is transient and
script-scoped: no operation writes a file or touches the network, no
effect survives the run, and the only mutations outside kernel-local
variables and output cells are in-process library-configuration calls
(the pandas display-width option, the matplotlib rc call and the
matplotlib inline magic). -/
theorem operations_transient_in_process :
    (∀ op ∈ notebookOperations,
      op.scope ≠ EffectScope.fileWrite ∧ op.scope ≠ EffectScope.network ∧
      op.survivesRun = false) ∧
    (∀ op ∈ notebookOperations, op.scope = EffectScope.libConfig →
      op.descr ∈ ["pd.set_option(display.width, 100)", "rc(text, usetex=True)",
        "%matplotlib inline magic"]) := by
  refine ⟨by decide, by decide⟩

/-- C9 witness: the pandas option call itself writes no file, touches
no network and does not survive the run. -/
theorem operations_transient_witness :
    ({ notebook := "metaanalysis1", descr := "pd.set_option(display.width, 100)",
       scope := EffectScope.libConfig, survivesRun := false } : NbOperation).scope
        ≠ EffectScope.fileWrite ∧
    ({ notebook := "metaanalysis1", descr := "pd.set_option(display.width, 100)",
       scope := EffectScope.libConfig, survivesRun := false } : NbOperation).scope
        ≠ EffectScope.network ∧
    ({ notebook := "metaanalysis1", descr := "pd.set_option(display.width, 100)",
       scope := EffectScope.libConfig, survivesRun := false } : NbOperation).survivesRun
        = false :=
  operations_transient_in_process.1
    { notebook := "metaanalysis1", descr := "pd.set_option(display.width, 100)",
      scope := EffectScope.libConfig, survivesRun := false } (by decide)

/-- C10: every input datum any notebook consumes comes either from an
inline literal embedded in the notebook source or from the public
dataset API of the imported external library; none comes from an
external file, the network or the command line. -/
theorem inputs_inline_or_library_dataset :
    notebookInputs ≠ [] ∧
    (∀ inp ∈ notebookInputs,
      inp.source = InputSource.inlineLiteral ∨
      inp.source = InputSource.libraryDatasetAPI) ∧
    (∀ inp ∈ notebookInputs,
      inp.source ≠ InputSource.externalFile ∧ inp.source ≠ InputSource.network ∧
      inp.source ≠ InputSource.cliArg) := by
  refine ⟨by decide, by decide, by decide⟩

/-- C10 witness: the Engel dataset load comes from the library dataset
API (and in particular not from a file, the network or the command
line). -/
theorem inputs_witness :
    ({ notebook := "quantile_regression",
       descr := "sm.datasets.engel.load_pandas().data",
       source := InputSource.libraryDatasetAPI } : NbInput).source
        = InputSource.inlineLiteral ∨
    ({ notebook := "quantile_regression",
       descr := "sm.datasets.engel.load_pandas().data",
       source := InputSource.libraryDatasetAPI } : NbInput).source
        = InputSource.libraryDatasetAPI :=
  inputs_inline_or_library_dataset.2.1
    { notebook := "quantile_regression",
      descr := "sm.datasets.engel.load_pandas().data",
      source := InputSource.libraryDatasetAPI } (by decide)

end Notebooks
